import Mathlib

/-!
Shallow embedding of `src/proxy-server.js`: a single-process HTTP relay that
dispatches POST requests on `/anthropic`, `/openai`, `/google` to one of
three provider adapters, each of which builds a provider-specific payload,
issues one outbound HTTPS request and relays the upstream response.

The JS runtime builtins the program uses (`JSON.parse`, `JSON.stringify`,
`Buffer.byteLength`, `url.parse(...).pathname`, template-literal string
coercion, the `||` operator) are modelled executably below; `JSON.parse`
itself is left abstract (the handler is parameterised by the parse
function), since only the success/failure of parsing is observable in the
program.
-/

/-- JavaScript values as produced by JSON parsing, plus `undefined`.
Numbers are modelled as integers: every numeric literal in the program is
an integer, and no arithmetic is performed on request fields. -/
inductive JSVal where
  | undefined
  | null
  | bool (b : Bool)
  | num (n : Int)
  | str (s : String)
  | arr (elems : List JSVal)
  | obj (fields : List (String × JSVal))

/-- JS property read `v.k`.  `JSVal.obj` represents a JS object property
table: keys distinct, in insertion order, so the first match is the
binding.  Property access on a primitive receiver yields `undefined`
(boxing finds no own property).  On a `null`/`undefined` receiver real JS
throws a TypeError instead; theorems about the adapters are therefore
stated for object inputs, where the model is exact. -/
def JSVal.get (v : JSVal) (k : String) : JSVal :=
  match v with
  | .obj fields =>
    match fields.lookup k with
    | some w => w
    | none => .undefined
  | _ => .undefined

/-- JS truthiness, as tested by `||`. -/
def JSVal.truthy : JSVal → Bool
  | .undefined => false
  | .null => false
  | .bool b => b
  | .num n => n != 0
  | .str s => s != ""
  | .arr _ => true
  | .obj _ => true

/-- The JS `a || b` operator: `a` when truthy, else `b`. -/
def jsOr (a b : JSVal) : JSVal := if a.truthy then a else b

/-- The keys of a JS object, in insertion order. -/
def JSVal.keys : JSVal → List String
  | .obj fields => fields.map Prod.fst
  | _ => []

def hexDigitChar (n : Nat) : Char :=
  if n < 10 then Char.ofNat (48 + n) else Char.ofNat (87 + n)

def jsonEscapeChar (c : Char) : String :=
  if c = '"' then "\\\""
  else if c = '\\' then "\\\\"
  else if c = '\n' then "\\n"
  else if c = '\r' then "\\r"
  else if c = '\t' then "\\t"
  else if c.toNat = 8 then "\\b"
  else if c.toNat = 12 then "\\f"
  else if c.toNat < 32 then
    "\\u00" ++ String.mk [hexDigitChar (c.toNat / 16), hexDigitChar (c.toNat % 16)]
  else String.mk [c]

/-- `JSON.stringify` of a string: quoted, with the standard escapes. -/
def jsonQuote (s : String) : String :=
  "\"" ++ String.join (s.toList.map jsonEscapeChar) ++ "\""

mutual

/-- `JSON.stringify`.  `undefined` is not serialisable (JS returns the
value `undefined`, modelled as `none`); an object member whose value is
`undefined` is dropped; `undefined` inside an array serialises as
`null`. -/
def jsonStringify : JSVal → Option String
  | .undefined => none
  | .null => some "null"
  | .bool b => some (cond b "true" "false")
  | .num n => some (toString n)
  | .str s => some (jsonQuote s)
  | .arr elems => some ("[" ++ String.intercalate "," (jsonStringifyElems elems) ++ "]")
  | .obj fields => some ("\x7b" ++ String.intercalate "," (jsonStringifyMembers fields) ++ "\x7d")

def jsonStringifyElems : List JSVal → List String
  | [] => []
  | v :: rest => ((jsonStringify v).getD "null") :: jsonStringifyElems rest

def jsonStringifyMembers : List (String × JSVal) → List String
  | [] => []
  | (k, v) :: rest =>
    match jsonStringify v with
    | none => jsonStringifyMembers rest
    | some sv => (jsonQuote k ++ ":" ++ sv) :: jsonStringifyMembers rest

end

/-- `JSON.stringify` at a call site where the program expects a string
(every use site in the program passes an object literal, which always
serialises to a string). -/
def jsonStringifyTop (v : JSVal) : String := (jsonStringify v).getD "undefined"

mutual

/-- JS string coercion `String(v)`, as performed by a template literal. -/
def jsToString : JSVal → String
  | .undefined => "undefined"
  | .null => "null"
  | .bool b => cond b "true" "false"
  | .num n => toString n
  | .str s => s
  | .arr elems => String.intercalate "," (jsToStringElems elems)
  | .obj _ => "[object Object]"

def jsToStringElems : List JSVal → List String
  | [] => []
  | .undefined :: rest => "" :: jsToStringElems rest
  | .null :: rest => "" :: jsToStringElems rest
  | v :: rest => jsToString v :: jsToStringElems rest

end

/-- The process-wide credentials configuration the program builds at
startup (`API_KEYS`, lines 5-9).  Each field holds the value for one
provider; an absent environment variable is modelled as the empty
string. -/
structure ApiKeys where
  anthropic : String
  openai : String
  google : String
deriving DecidableEq

/-- The identifiers in scope when the initializer of `API_KEYS` (line 5)
runs: the three `require` results bound on lines 1-3, plus ambient
Node.js/ECMAScript globals.  `os` is not among them: the program never
requires Node's `os` module (which has no `getenv` function in any
case). -/
def identsInScopeAtStartup : List String :=
  ["http", "https", "url",
   "require", "module", "exports", "__dirname", "__filename",
   "globalThis", "process", "console", "JSON", "Buffer", "Math", "Date",
   "Object", "Array", "String", "Number", "Boolean", "Promise", "Error",
   "URL", "URLSearchParams", "setTimeout", "setInterval", "clearTimeout",
   "clearInterval", "setImmediate", "queueMicrotask", "TextEncoder",
   "TextDecoder", "RegExp", "Symbol", "Map", "Set", "WeakMap", "WeakSet",
   "Reflect", "Proxy", "Intl", "parseInt", "parseFloat", "isNaN",
   "isFinite", "NaN", "Infinity", "undefined", "structuredClone",
   "AbortController", "AbortSignal", "fetch", "performance", "atob", "btoa"]

/-- Evaluation of the module's top level.  Lines 1-3 bind `http`, `https`
and `url`.  Line 5 then evaluates the object literal initialising
`API_KEYS`, whose first member evaluates `os.getenv('ANTHROPIC_API_KEY')`:
the identifier `os` must resolve in the current scope, otherwise the
evaluation throws a ReferenceError and the process exits before
`http.createServer` (line 11) or `server.listen` (line 183) is reached.
Were `os` in scope, the three environment variables would be read once
each, an absent one yielding an empty/undefined credential. -/
def moduleStartup (env : String → Option String) : Except String ApiKeys :=
  if "os" ∈ identsInScopeAtStartup then
    Except.ok
      { anthropic := (env "ANTHROPIC_API_KEY").getD ""
        openai := (env "OPENAI_API_KEY").getD ""
        google := (env "GOOGLE_API_KEY").getD "" }
  else
    Except.error "ReferenceError: os is not defined"

/-- One outbound HTTPS request, as configured by an adapter's `options`
object together with the written body. -/
structure OutboundRequest where
  hostname : String
  port : Nat
  path : String
  method : String
  headers : List (String × String)
  body : String
deriving DecidableEq

/-- One response written to the original caller: the status code and
headers passed to `res.writeHead` (plus any headers previously set with
`res.setHeader`), and the body passed to `res.end`. -/
structure Response where
  status : Nat
  headers : List (String × String)
  body : String
deriving DecidableEq

/-- The three cross-origin headers set by `res.setHeader` at the top of
the request handler (lines 13-15); `res.writeHead` merges them into every
response the server writes. -/
def corsHeaders : List (String × String) :=
  [("Access-Control-Allow-Origin", "*"),
   ("Access-Control-Allow-Methods", "POST, OPTIONS"),
   ("Access-Control-Allow-Headers", "Content-Type")]

def contentTypeJson : List (String × String) :=
  [("Content-Type", "application/json")]

/-- `JSON.stringify({ error: msg })`, the body shape of every locally
produced error response. -/
def jsonError (msg : String) : String :=
  jsonStringifyTop (JSVal.obj [("error", .str msg)])

/-- Outcome of the single outbound HTTPS request an adapter issues: either
the upstream response completes (its status code and the `data` chunks
buffered before `end`), or the request emits `error` (connection not
established, or failed mid-flight). -/
inductive UpstreamOutcome where
  | success (status : Nat) (chunks : List String)
  | failure (message : String)

/-- The object literal serialised by `proxyToAnthropic` (lines 59-63). -/
def anthropicPayload (data : JSVal) : JSVal :=
  .obj [("model", data.get "model"),
        ("max_tokens", jsOr (data.get "max_tokens") (.num 4096)),
        ("messages", data.get "messages")]

/-- The object literal serialised by `proxyToOpenAI` (lines 101-104). -/
def openaiPayload (data : JSVal) : JSVal :=
  .obj [("model", data.get "model"),
        ("messages", data.get "messages")]

/-- The object literal serialised by `proxyToGoogle` (lines 141-147). -/
def googlePayload (data : JSVal) : JSVal :=
  .obj [("contents", .arr [.obj [("parts", .arr [.obj [("text", data.get "prompt")]])]])]

/-- `proxyToAnthropic` (lines 58-98): serialises `anthropicPayload`,
issues one HTTPS POST to `api.anthropic.com:443/v1/messages` with the
`x-api-key` and `anthropic-version` headers, and produces exactly one
response: on upstream `end`, the upstream status code with the buffered
body under `Content-Type: application/json`; on `error`, 500 with
`{error: message}`. -/
def proxyToAnthropic (keys : ApiKeys) (data : JSVal) (outcome : UpstreamOutcome) :
    List OutboundRequest × List Response :=
  let postData := jsonStringifyTop (anthropicPayload data)
  let req : OutboundRequest :=
    { hostname := "api.anthropic.com"
      port := 443
      path := "/v1/messages"
      method := "POST"
      headers :=
        [("Content-Type", "application/json"),
         ("x-api-key", keys.anthropic),
         ("anthropic-version", "2023-06-01"),
         ("Content-Length", toString postData.utf8ByteSize)]
      body := postData }
  match outcome with
  | .success status chunks =>
    ([req], [{ status := status, headers := contentTypeJson, body := String.join chunks }])
  | .failure msg =>
    ([req], [{ status := 500, headers := contentTypeJson, body := jsonError msg }])

/-- `proxyToOpenAI` (lines 100-138): serialises `openaiPayload`, issues
one HTTPS POST to `api.openai.com:443/v1/chat/completions` with a Bearer
`Authorization` header, and produces exactly one response, exactly as the
other adapters do. -/
def proxyToOpenAI (keys : ApiKeys) (data : JSVal) (outcome : UpstreamOutcome) :
    List OutboundRequest × List Response :=
  let postData := jsonStringifyTop (openaiPayload data)
  let req : OutboundRequest :=
    { hostname := "api.openai.com"
      port := 443
      path := "/v1/chat/completions"
      method := "POST"
      headers :=
        [("Content-Type", "application/json"),
         ("Authorization", "Bearer " ++ keys.openai),
         ("Content-Length", toString postData.utf8ByteSize)]
      body := postData }
  match outcome with
  | .success status chunks =>
    ([req], [{ status := status, headers := contentTypeJson, body := String.join chunks }])
  | .failure msg =>
    ([req], [{ status := 500, headers := contentTypeJson, body := jsonError msg }])

/-- `proxyToGoogle` (lines 140-180): serialises `googlePayload`, issues
one HTTPS POST to `generativelanguage.googleapis.com:443` at the path
built by the template literal on line 152 — the model name interpolated
into the path and the API key appended as the `key` query parameter, with
no authentication header — and produces exactly one response, exactly as
the other adapters do. -/
def proxyToGoogle (keys : ApiKeys) (data : JSVal) (outcome : UpstreamOutcome) :
    List OutboundRequest × List Response :=
  let postData := jsonStringifyTop (googlePayload data)
  let req : OutboundRequest :=
    { hostname := "generativelanguage.googleapis.com"
      port := 443
      path := "/v1beta/models/" ++ jsToString (data.get "model") ++
              ":generateContent?key=" ++ keys.google
      method := "POST"
      headers :=
        [("Content-Type", "application/json"),
         ("Content-Length", toString postData.utf8ByteSize)]
      body := postData }
  match outcome with
  | .success status chunks =>
    ([req], [{ status := status, headers := contentTypeJson, body := String.join chunks }])
  | .failure msg =>
    ([req], [{ status := 500, headers := contentTypeJson, body := jsonError msg }])

/-- `url.parse(req.url, true).pathname` (lines 29-30): the part of the
request URL before the query string (`?`) or fragment (`#`); the query
string itself is not consulted by the routing. -/
def pathnameOf (u : String) : String :=
  String.mk (u.toList.takeWhile (fun c => !(c == '?' || c == '#')))

/-- The three provider adapters the handler can dispatch to. -/
inductive Provider where
  | anthropic
  | openai
  | google
deriving DecidableEq

/-- Everything one request produces: which adapter (if any) was dispatched
to, the outbound requests issued, and the responses written back to the
original caller. -/
structure RelayResult where
  invoked : Option Provider
  outbound : List OutboundRequest
  responses : List Response
deriving DecidableEq

/-- `res.writeHead` merges the headers set earlier with `res.setHeader`
(the three CORS headers, lines 13-15) into the response. -/
def addCorsHeaders (r : Response) : Response :=
  { r with headers := corsHeaders ++ r.headers }

/-- The `http.createServer` request handler (lines 11-56), parameterised
by `parse` — the `JSON.parse` builtin, with `none` modelling a parse
exception — and by the upstream outcome an adapter would observe.
OPTIONS is answered 200 with an empty body; any other non-POST method is
answered 405.  For POST the buffered body is parsed first: a parse
failure is answered 400 with `{"error":"Invalid JSON"}` before the path
is consulted; otherwise the pathname (computed on lines 29-30, query
string stripped) selects the adapter, and an unknown path is answered
404 with `{"error":"Not found"}`. -/
def handleRequest (keys : ApiKeys) (parse : String → Option JSVal)
    (method urlStr body : String) (outcome : UpstreamOutcome) : RelayResult :=
  if method = "OPTIONS" then
    { invoked := none, outbound := [],
      responses := [{ status := 200, headers := corsHeaders, body := "" }] }
  else if method ≠ "POST" then
    { invoked := none, outbound := [],
      responses := [{ status := 405, headers := corsHeaders ++ contentTypeJson,
                      body := jsonError "Method not allowed" }] }
  else
    let pathname := pathnameOf urlStr
    match parse body with
    | none =>
      { invoked := none, outbound := [],
        responses := [{ status := 400, headers := corsHeaders ++ contentTypeJson,
                        body := jsonError "Invalid JSON" }] }
    | some data =>
      if pathname = "/anthropic" then
        let run := proxyToAnthropic keys data outcome
        { invoked := some .anthropic, outbound := run.1,
          responses := run.2.map addCorsHeaders }
      else if pathname = "/openai" then
        let run := proxyToOpenAI keys data outcome
        { invoked := some .openai, outbound := run.1,
          responses := run.2.map addCorsHeaders }
      else if pathname = "/google" then
        let run := proxyToGoogle keys data outcome
        { invoked := some .google, outbound := run.1,
          responses := run.2.map addCorsHeaders }
      else
        { invoked := none, outbound := [],
          responses := [{ status := 404, headers := corsHeaders ++ contentTypeJson,
                          body := jsonError "Not found" }] }

/-- C1: the claim says startup reads the three credentials from the
process environment and raises no error when a variable is absent.  The
code instead evaluates `os.getenv('ANTHROPIC_API_KEY')` on line 6 with
`os` never bound — the module requires only `http`, `https` and `url`,
and `os` is no ambient global (nor would Node's `os` module offer a
`getenv` function) — so module evaluation throws a ReferenceError and the
process fails to start under every environment, including one with all
three variables set. -/
theorem startup_throws_reference_error :
    ∀ env : String → Option String,
      moduleStartup env = Except.error "ReferenceError: os is not defined" :=
  fun _ => rfl

/-- C2 counterexample: the body
`{"model":"claude-3","max_tokens":0,"messages":[]}` has `max_tokens`
present, yet the payload built by `proxyToAnthropic` carries
`max_tokens: 4096` rather than the input's `0`, because line 61 uses the
truthiness test `data.max_tokens || 4096`. -/
theorem anthropic_max_tokens_zero_not_passed_through :
    ((JSVal.obj [("model", .str "claude-3"), ("max_tokens", .num 0),
        ("messages", .arr [])]).get "max_tokens" ≠ JSVal.undefined) ∧
    ((anthropicPayload (JSVal.obj [("model", .str "claude-3"), ("max_tokens", .num 0),
        ("messages", .arr [])])).get "max_tokens" ≠
      (JSVal.obj [("model", .str "claude-3"), ("max_tokens", .num 0),
        ("messages", .arr [])]).get "max_tokens") := by
  constructor
  · show JSVal.num 0 ≠ JSVal.undefined
    exact fun h => nomatch h
  · show JSVal.num 4096 ≠ JSVal.num 0
    simp

/-- C2 (amended): for every JSON object body, the Anthropic outbound
payload has exactly the keys `model`, `max_tokens`, `messages`; `model`
and `messages` are the input's fields passed through unmodified;
`max_tokens` is the input's `max_tokens` when that value is truthy and
`4096` when the field is absent or holds a falsy value (`undefined`,
`null`, `false`, `0`, `""`); and the serialised payload is the body of
the single outbound request. -/
theorem anthropic_outbound_payload_shape (keys : ApiKeys)
    (fields : List (String × JSVal)) (outcome : UpstreamOutcome) :
    (anthropicPayload (JSVal.obj fields)).keys = ["model", "max_tokens", "messages"] ∧
    (anthropicPayload (JSVal.obj fields)).get "model" = (JSVal.obj fields).get "model" ∧
    (anthropicPayload (JSVal.obj fields)).get "messages" = (JSVal.obj fields).get "messages" ∧
    (anthropicPayload (JSVal.obj fields)).get "max_tokens" =
      (if ((JSVal.obj fields).get "max_tokens").truthy then (JSVal.obj fields).get "max_tokens"
       else JSVal.num 4096) ∧
    (proxyToAnthropic keys (JSVal.obj fields) outcome).1.map OutboundRequest.body =
      [jsonStringifyTop (anthropicPayload (JSVal.obj fields))] := by
  refine ⟨rfl, rfl, rfl, rfl, ?_⟩
  cases outcome <;> rfl

/-- C3: for every JSON object body, the OpenAI outbound payload has
exactly the keys `model` and `messages`, copied from the input; no
`max_tokens` (nor any other input field) is forwarded; the serialised
payload is the body of the single outbound request; and on the spec's
round-trip example the outbound body is byte-for-byte the input body,
whose 200 echo is relayed to the caller. -/
theorem openai_outbound_payload_exact (keys : ApiKeys)
    (fields : List (String × JSVal)) (outcome : UpstreamOutcome) :
    (openaiPayload (JSVal.obj fields)).keys = ["model", "messages"] ∧
    (openaiPayload (JSVal.obj fields)).get "model" = (JSVal.obj fields).get "model" ∧
    (openaiPayload (JSVal.obj fields)).get "messages" = (JSVal.obj fields).get "messages" ∧
    (openaiPayload (JSVal.obj fields)).get "max_tokens" = JSVal.undefined ∧
    (proxyToOpenAI keys (JSVal.obj fields) outcome).1.map OutboundRequest.body =
      [jsonStringifyTop (openaiPayload (JSVal.obj fields))] ∧
    (proxyToOpenAI keys (JSVal.obj
        [("model", .str "gpt-4"),
         ("messages", .arr [.obj [("role", .str "user"), ("content", .str "hi")]])])
      outcome).1.map OutboundRequest.body =
      ["\x7b\"model\":\"gpt-4\",\"messages\":[\x7b\"role\":\"user\",\"content\":\"hi\"\x7d]\x7d"] ∧
    (handleRequest keys (fun _ => some (JSVal.obj
        [("model", .str "gpt-4"),
         ("messages", .arr [.obj [("role", .str "user"), ("content", .str "hi")]])]))
      "POST" "/openai"
      "\x7b\"model\":\"gpt-4\",\"messages\":[\x7b\"role\":\"user\",\"content\":\"hi\"\x7d]\x7d"
      (.success 200
        ["\x7b\"model\":\"gpt-4\",\"messages\":[\x7b\"role\":\"user\",\"content\":\"hi\"\x7d]\x7d"])).responses =
      [{ status := 200, headers := corsHeaders ++ contentTypeJson,
         body := "\x7b\"model\":\"gpt-4\",\"messages\":[\x7b\"role\":\"user\",\"content\":\"hi\"\x7d]\x7d" }] := by
  refine ⟨rfl, rfl, rfl, rfl, ?_, ?_, rfl⟩ <;> cases outcome <;> rfl

/-- C4: for every JSON object body, the Google outbound payload is
exactly `{contents: [{parts: [{text: prompt}]}]}` built from the input's
`prompt` field alone — the payload is unchanged if every field but
`prompt` (in particular `messages`) is discarded — and the single
outbound request targets `/v1beta/models/{model}:generateContent` with
the API key appended as the `key` query parameter of the path, while the
header list carries no authentication header. -/
theorem google_outbound_request_shape (keys : ApiKeys)
    (fields : List (String × JSVal)) (outcome : UpstreamOutcome) :
    googlePayload (JSVal.obj fields) =
      JSVal.obj [("contents", .arr [.obj [("parts",
        .arr [.obj [("text", (JSVal.obj fields).get "prompt")]])]])] ∧
    googlePayload (JSVal.obj fields) =
      googlePayload (JSVal.obj [("prompt", (JSVal.obj fields).get "prompt")]) ∧
    (proxyToGoogle keys (JSVal.obj fields) outcome).1 =
      [{ hostname := "generativelanguage.googleapis.com"
         port := 443
         path := "/v1beta/models/" ++ jsToString ((JSVal.obj fields).get "model") ++
                 ":generateContent?key=" ++ keys.google
         method := "POST"
         headers := [("Content-Type", "application/json"),
                     ("Content-Length",
                      toString (jsonStringifyTop (googlePayload (JSVal.obj fields))).utf8ByteSize)]
         body := jsonStringifyTop (googlePayload (JSVal.obj fields)) }] := by
  refine ⟨rfl, rfl, ?_⟩
  cases outcome <;> rfl

/-- C5: for every POST whose body parses to a JSON object and whose path
routes to one of the three adapters, when the upstream response
completes, the single response written to the caller has exactly the
upstream's status code, the `Content-Type: application/json` header, and
a body that is the concatenation of the upstream's buffered chunks —
whatever the status code, 4xx/5xx included. -/
theorem upstream_response_passed_through (keys : ApiKeys)
    (parse : String → Option JSVal) (u body : String)
    (fields : List (String × JSVal)) (status : Nat) (chunks : List String)
    (hparse : parse body = some (JSVal.obj fields))
    (hroute : pathnameOf u ∈ ["/anthropic", "/openai", "/google"]) :
    (handleRequest keys parse "POST" u body (.success status chunks)).responses =
      [{ status := status, headers := corsHeaders ++ contentTypeJson,
         body := String.join chunks }] := by
  simp only [List.mem_cons, List.not_mem_nil, or_false] at hroute
  rcases hroute with h | h | h <;>
    simp [handleRequest, hparse, h, proxyToAnthropic, proxyToOpenAI, proxyToGoogle,
      addCorsHeaders]

theorem upstream_response_passed_through_witness :
    ((fun _ : String => some (JSVal.obj [])) "x" = some (JSVal.obj [])) ∧
    pathnameOf "/openai" ∈ ["/anthropic", "/openai", "/google"] ∧
    (handleRequest ⟨"a", "o", "g"⟩ (fun _ => some (JSVal.obj [])) "POST" "/openai" "x"
        (.success 429 ["ra", "te"])).responses =
      [{ status := 429, headers := corsHeaders ++ contentTypeJson, body := "rate" }] :=
  ⟨rfl, by decide,
    upstream_response_passed_through ⟨"a", "o", "g"⟩ (fun _ => some (JSVal.obj []))
      "/openai" "x" [] 429 ["ra", "te"] rfl (by decide)⟩

/-- C6: for every POST whose body parses to a JSON object and whose path
routes to one of the three adapters, when the outbound connection fails
the adapter writes exactly one response — status 500 with the JSON body
`JSON.stringify({error: message})` — and exactly one outbound request
was issued (no retry). -/
theorem upstream_failure_yields_single_500 (keys : ApiKeys)
    (parse : String → Option JSVal) (u body : String)
    (fields : List (String × JSVal)) (msg : String)
    (hparse : parse body = some (JSVal.obj fields))
    (hroute : pathnameOf u ∈ ["/anthropic", "/openai", "/google"]) :
    (handleRequest keys parse "POST" u body (.failure msg)).responses =
      [{ status := 500, headers := corsHeaders ++ contentTypeJson,
         body := jsonError msg }] ∧
    (handleRequest keys parse "POST" u body (.failure msg)).outbound.length = 1 := by
  simp only [List.mem_cons, List.not_mem_nil, or_false] at hroute
  rcases hroute with h | h | h <;>
    constructor <;>
      simp [handleRequest, hparse, h, proxyToAnthropic, proxyToOpenAI, proxyToGoogle,
        addCorsHeaders]

theorem upstream_failure_yields_single_500_witness :
    ((fun _ : String => some (JSVal.obj [])) "x" = some (JSVal.obj [])) ∧
    pathnameOf "/anthropic" ∈ ["/anthropic", "/openai", "/google"] ∧
    (handleRequest ⟨"a", "o", "g"⟩ (fun _ => some (JSVal.obj [])) "POST" "/anthropic" "x"
        (.failure "getaddrinfo ENOTFOUND api.anthropic.com")).responses =
      [{ status := 500, headers := corsHeaders ++ contentTypeJson,
         body := jsonError "getaddrinfo ENOTFOUND api.anthropic.com" }] ∧
    (handleRequest ⟨"a", "o", "g"⟩ (fun _ => some (JSVal.obj [])) "POST" "/anthropic" "x"
        (.failure "getaddrinfo ENOTFOUND api.anthropic.com")).outbound.length = 1 :=
  ⟨rfl, by decide,
    upstream_failure_yields_single_500 ⟨"a", "o", "g"⟩ (fun _ => some (JSVal.obj []))
      "/anthropic" "x" [] "getaddrinfo ENOTFOUND api.anthropic.com" rfl (by decide)⟩

/-- C7: every response the handler produces — OPTIONS preflight, 405,
400, 404, adapter success relay and adapter failure 500 alike — carries
the three cross-origin headers set on lines 13-15. -/
theorem every_response_has_cors_headers (keys : ApiKeys)
    (parse : String → Option JSVal) (method u body : String)
    (outcome : UpstreamOutcome) :
    ∀ r ∈ (handleRequest keys parse method u body outcome).responses,
      ("Access-Control-Allow-Origin", "*") ∈ r.headers ∧
      ("Access-Control-Allow-Methods", "POST, OPTIONS") ∈ r.headers ∧
      ("Access-Control-Allow-Headers", "Content-Type") ∈ r.headers := by
  intro r hr
  cases outcome <;> simp only [handleRequest] at hr <;> repeat' split at hr
  all_goals
    simp only [proxyToAnthropic, proxyToOpenAI, proxyToGoogle, List.map_cons, List.map_nil,
      List.mem_singleton, List.mem_cons, List.not_mem_nil, or_false] at hr
  all_goals subst hr
  all_goals refine ⟨?_, ?_, ?_⟩ <;> simp [addCorsHeaders, corsHeaders, contentTypeJson]

theorem every_response_has_cors_headers_witness :
    (({ status := 405, headers := corsHeaders ++ contentTypeJson,
        body := jsonError "Method not allowed" } : Response) ∈
      (handleRequest ⟨"a", "o", "g"⟩ (fun _ => none) "GET" "/x" "" (.failure "e")).responses) ∧
    (("Access-Control-Allow-Origin", "*") ∈
      ({ status := 405, headers := corsHeaders ++ contentTypeJson,
         body := jsonError "Method not allowed" } : Response).headers ∧
     ("Access-Control-Allow-Methods", "POST, OPTIONS") ∈
      ({ status := 405, headers := corsHeaders ++ contentTypeJson,
         body := jsonError "Method not allowed" } : Response).headers ∧
     ("Access-Control-Allow-Headers", "Content-Type") ∈
      ({ status := 405, headers := corsHeaders ++ contentTypeJson,
         body := jsonError "Method not allowed" } : Response).headers) :=
  ⟨by decide,
    every_response_has_cors_headers ⟨"a", "o", "g"⟩ (fun _ => none) "GET" "/x" ""
      (.failure "e")
      { status := 405, headers := corsHeaders ++ contentTypeJson,
        body := jsonError "Method not allowed" } (by decide)⟩

/-- C8: for every POST whose buffered body fails to parse as JSON —
whatever the path, upstream state or configuration — the handler answers
400 with exactly `{"error":"Invalid JSON"}`, dispatches no adapter and
issues no outbound request. -/
theorem invalid_json_yields_400 (keys : ApiKeys) (parse : String → Option JSVal)
    (u body : String) (outcome : UpstreamOutcome)
    (hparse : parse body = none) :
    handleRequest keys parse "POST" u body outcome =
      { invoked := none, outbound := [],
        responses := [{ status := 400, headers := corsHeaders ++ contentTypeJson,
                        body := jsonError "Invalid JSON" }] } ∧
    jsonError "Invalid JSON" = "\x7b\"error\":\"Invalid JSON\"\x7d" := by
  refine ⟨?_, rfl⟩
  simp [handleRequest, hparse]

theorem invalid_json_yields_400_witness :
    ((fun _ : String => (none : Option JSVal)) "not-json" = none) ∧
    (handleRequest ⟨"a", "o", "g"⟩ (fun _ => none) "POST" "/anthropic" "not-json"
        (.failure "e") =
      { invoked := none, outbound := [],
        responses := [{ status := 400, headers := corsHeaders ++ contentTypeJson,
                        body := jsonError "Invalid JSON" }] } ∧
    jsonError "Invalid JSON" = "\x7b\"error\":\"Invalid JSON\"\x7d") :=
  ⟨rfl, invalid_json_yields_400 ⟨"a", "o", "g"⟩ (fun _ => none) "/anthropic" "not-json"
    (.failure "e") rfl⟩

theorem takeWhile_append_cons_of_neg {α : Type} (p : α → Bool) (a : α)
    (ha : p a = false) (l tail : List α) :
    (l ++ a :: tail).takeWhile p = l.takeWhile p := by
  induction l with
  | nil => simp [List.takeWhile_cons, ha]
  | cons b t ih => cases hb : p b <;> simp [List.takeWhile_cons, hb, ih]

/-- C9: routing uses `url.parse(req.url).pathname`, which drops the query
string (appending `?...` to a URL never changes the pathname); and every
POST whose body parses as JSON but whose pathname is none of
`/anthropic`, `/openai`, `/google` is answered 404 with exactly
`{"error":"Not found"}`, with no adapter dispatched and no outbound
request issued. -/
theorem unknown_path_yields_404 :
    (∀ p q : String, pathnameOf (p ++ "?" ++ q) = pathnameOf p) ∧
    ∀ (keys : ApiKeys) (parse : String → Option JSVal) (u body : String) (d : JSVal)
      (outcome : UpstreamOutcome),
      parse body = some d →
      pathnameOf u ∉ ["/anthropic", "/openai", "/google"] →
      handleRequest keys parse "POST" u body outcome =
        { invoked := none, outbound := [],
          responses := [{ status := 404, headers := corsHeaders ++ contentTypeJson,
                          body := jsonError "Not found" }] } := by
  constructor
  · intro p q
    show String.mk _ = String.mk _
    rw [String.toList, String.toList, String.data_append, String.data_append,
      List.append_assoc]
    exact congrArg String.mk
      (takeWhile_append_cons_of_neg _ '?' rfl p.data q.data)
  · intro keys parse u body d outcome hparse hpath
    simp only [List.mem_cons, List.not_mem_nil, or_false, not_or] at hpath
    obtain ⟨h1, h2, h3⟩ := hpath
    simp [handleRequest, hparse, h1, h2, h3]

theorem unknown_path_yields_404_witness :
    ((fun _ : String => some (JSVal.obj [])) "\x7b\x7d" = some (JSVal.obj [])) ∧
    pathnameOf "/unknown?x=1" ∉ ["/anthropic", "/openai", "/google"] ∧
    handleRequest ⟨"a", "o", "g"⟩ (fun _ => some (JSVal.obj [])) "POST" "/unknown?x=1"
        "\x7b\x7d" (.failure "e") =
      { invoked := none, outbound := [],
        responses := [{ status := 404, headers := corsHeaders ++ contentTypeJson,
                        body := jsonError "Not found" }] } :=
  ⟨rfl, by decide,
    unknown_path_yields_404.2 ⟨"a", "o", "g"⟩ (fun _ => some (JSVal.obj []))
      "/unknown?x=1" "\x7b\x7d" (JSVal.obj []) (.failure "e") rfl (by decide)⟩

/-- C10: JSON parsing takes precedence over routing — a POST to an
unroutable path with an unparsable body is answered 400 `Invalid JSON`,
not 404 `Not found`, because line 39 parses the body before lines 41-50
examine the path. -/
theorem parse_error_beats_routing (keys : ApiKeys) (parse : String → Option JSVal)
    (u body : String) (outcome : UpstreamOutcome)
    (hparse : parse body = none)
    (_hpath : pathnameOf u ∉ ["/anthropic", "/openai", "/google"]) :
    (handleRequest keys parse "POST" u body outcome).responses =
      [{ status := 400, headers := corsHeaders ++ contentTypeJson,
         body := jsonError "Invalid JSON" }] ∧
    (handleRequest keys parse "POST" u body outcome).responses ≠
      [{ status := 404, headers := corsHeaders ++ contentTypeJson,
         body := jsonError "Not found" }] := by
  have h : (handleRequest keys parse "POST" u body outcome).responses =
      [{ status := 400, headers := corsHeaders ++ contentTypeJson,
         body := jsonError "Invalid JSON" }] := by
    simp [handleRequest, hparse]
  refine ⟨h, ?_⟩
  rw [h]
  decide

theorem parse_error_beats_routing_witness :
    ((fun _ : String => (none : Option JSVal)) "not-json" = none) ∧
    pathnameOf "/unknown" ∉ ["/anthropic", "/openai", "/google"] ∧
    ((handleRequest ⟨"a", "o", "g"⟩ (fun _ => none) "POST" "/unknown" "not-json"
        (.failure "e")).responses =
      [{ status := 400, headers := corsHeaders ++ contentTypeJson,
         body := jsonError "Invalid JSON" }] ∧
    (handleRequest ⟨"a", "o", "g"⟩ (fun _ => none) "POST" "/unknown" "not-json"
        (.failure "e")).responses ≠
      [{ status := 404, headers := corsHeaders ++ contentTypeJson,
         body := jsonError "Not found" }]) :=
  ⟨rfl, by decide,
    parse_error_beats_routing ⟨"a", "o", "g"⟩ (fun _ => none) "/unknown" "not-json"
      (.failure "e") rfl (by decide)⟩
